import Mathlib

/-!
Shallow embedding of `src/main.rs` from the `rust_counter_mcp` repository: a
minimal MCP server exposing three tools (`increment`, `decrement`,
`get_counter`) over a single shared `i32` counter held in a mutex.

The mutex serialises the critical sections, so every handler is embedded as a
pure function from the current counter value to a (result, new counter value)
pair.  The `i32` cell is embedded as an `Int` together with explicit
two's-complement wraparound (`wrap32`, arithmetic modulo 2^32 mapped into the
signed range), matching native Rust `i32` wraparound arithmetic for
`*count += 1` and `*count -= 1`.
-/

namespace CounterMCP

/-- Minimum value of a 32-bit signed integer, the type of the counter cell. -/
def INT32_MIN : Int := -(2 ^ 31)

/-- Maximum value of a 32-bit signed integer, the type of the counter cell. -/
def INT32_MAX : Int := 2 ^ 31 - 1

/-- Two's-complement reduction of an integer into the `i32` range: arithmetic
modulo 2^32, with representatives chosen in `[-2^31, 2^31)`.  This embeds
native `i32` wraparound on overflow. -/
def wrap32 (v : Int) : Int := (v + 2 ^ 31) % 2 ^ 32 - 2 ^ 31

/-- `rmcp::model::Content`, restricted to the one constructor the server
uses: `Content::text`. -/
inductive Content where
  | text (s : String)
deriving DecidableEq

/-- `rmcp::model::CallToolResult`: a list of content items plus the error
flag. -/
structure CallToolResult where
  content : List Content
  is_error : Option Bool
deriving DecidableEq

/-- `CallToolResult::success`: wraps content items with `is_error` set to
`Some(false)`. -/
def CallToolResult.success (content : List Content) : CallToolResult :=
  { content := content, is_error := some false }

/-- `rmcp::ErrorData`: a machine-readable error code plus a message. -/
structure ErrorData where
  code : Int
  message : String
deriving DecidableEq

/-- The JSON-RPC `MethodNotFound` error code carried by
`rmcp::model::ErrorCode::METHOD_NOT_FOUND`. -/
def METHOD_NOT_FOUND : Int := -32601

/-- A tool descriptor as listed by the generated tool router: its registered
name and description (from the `#[tool(...)]` attributes in `main.rs`). -/
structure Tool where
  name : String
  description : String
deriving DecidableEq

/-- `rmcp::model::ListToolsResult`. -/
structure ListToolsResult where
  tools : List Tool
  next_cursor : Option String
deriving DecidableEq

deriving instance DecidableEq for Except

/-- `HelloWorld::new`: the counter cell starts at 0. -/
def HelloWorld.new : Int := 0

/-- `HelloWorld::increment`: locks the counter, executes `*count += 1`
(native `i32` wraparound), and returns a success result whose single text
content is `count.to_string()`.  The returned pair is (handler result, new
counter value). -/
def HelloWorld.increment (v : Int) : Except ErrorData CallToolResult × Int :=
  let count := wrap32 (v + 1)
  (Except.ok (CallToolResult.success [Content.text (toString count)]), count)

/-- `HelloWorld::decrement`: locks the counter, executes `*count -= 1`
(native `i32` wraparound), and returns a success result whose single text
content is `count.to_string()`. -/
def HelloWorld.decrement (v : Int) : Except ErrorData CallToolResult × Int :=
  let count := wrap32 (v - 1)
  (Except.ok (CallToolResult.success [Content.text (toString count)]), count)

/-- `HelloWorld::get_counter`: locks the counter and returns a success result
whose single text content is `count.to_string()`; the counter is not
mutated. -/
def HelloWorld.get_counter (v : Int) : Except ErrorData CallToolResult × Int :=
  (Except.ok (CallToolResult.success [Content.text (toString v)]), v)

/-- The static tool list produced by `Self::tool_router().list_all()`: the
three tools registered by the `#[tool(...)]` attributes in `main.rs`, in
declaration order, with their literal descriptions. -/
def tool_router_list_all : List Tool :=
  [ { name := "increment",
      description := "Tool that increments and decrements a counter" },
    { name := "decrement",
      description := "Tool that decrements a counter" },
    { name := "get_counter",
      description := "Tool that returns the current value of the counter" } ]

/-- `ServerHandler::list_tools` for `HelloWorld`: ignores the pagination
argument and the counter state, and returns all registered tools with
`next_cursor: None`. -/
def HelloWorld.list_tools (_pagination : Option String) (_v : Int) :
    Except ErrorData ListToolsResult :=
  Except.ok { tools := tool_router_list_all, next_cursor := none }

/-- `Self::tool_router().call(context)`: dispatch by tool name over the table
generated from the `#[tool(...)]` attributes in `main.rs`.

Modelled from the spec: the fallback of the generated tool router for a name
outside the registered set is produced by macro-generated / library routing
code that is not under `src/`; the spec describes it as a protocol-level
"method not found" error that leaves the counter untouched and does not
terminate the server. -/
def tool_router_call (name : String) (v : Int) :
    Except ErrorData CallToolResult × Int :=
  if name = "increment" then HelloWorld.increment v
  else if name = "decrement" then HelloWorld.decrement v
  else if name = "get_counter" then HelloWorld.get_counter v
  else (Except.error { code := METHOD_NOT_FOUND, message := "tool not found" }, v)

/-- `ServerHandler::call_tool` for `HelloWorld`: builds the call context and
delegates to the generated tool router. -/
def HelloWorld.call_tool (name : String) (v : Int) :
    Except ErrorData CallToolResult × Int :=
  tool_router_call name v

/-- One counter operation, for reasoning about sequences of calls. -/
inductive Op where
  | inc
  | dec
  | get
deriving DecidableEq

/-- The effect of one operation on the counter cell. -/
def applyOp (v : Int) : Op → Int
  | Op.inc => (HelloWorld.increment v).2
  | Op.dec => (HelloWorld.decrement v).2
  | Op.get => (HelloWorld.get_counter v).2

/-- The counter value after running a sequence of operations in order. -/
def runOps (v : Int) : List Op → Int
  | [] => v
  | op :: rest => runOps (applyOp v op) rest

/- ### Helper lemmas about `wrap32` and `runOps` -/

theorem wrap32_range (x : Int) : INT32_MIN ≤ wrap32 x ∧ wrap32 x ≤ INT32_MAX := by
  unfold wrap32 INT32_MIN INT32_MAX
  omega

theorem wrap32_eq_of_range (x : Int) (h1 : INT32_MIN ≤ x) (h2 : x ≤ INT32_MAX) :
    wrap32 x = x := by
  unfold wrap32 INT32_MIN INT32_MAX at *
  omega

theorem wrap32_add_left (x y : Int) : wrap32 (wrap32 x + y) = wrap32 (x + y) := by
  unfold wrap32
  omega

theorem runOps_cons (v : Int) (op : Op) (rest : List Op) :
    runOps v (op :: rest) = runOps (applyOp v op) rest := rfl

theorem runOps_eq_wrap (l : List Op) : ∀ v : Int, INT32_MIN ≤ v → v ≤ INT32_MAX →
    runOps v l = wrap32 (v + l.count Op.inc - l.count Op.dec) := by
  induction l with
  | nil =>
    intro v h1 h2
    simp only [runOps, List.count_nil, Int.natCast_zero, add_zero, sub_zero]
    exact (wrap32_eq_of_range v h1 h2).symm
  | cons op rest ih =>
    intro v h1 h2
    cases op with
    | inc =>
      have hr := wrap32_range (v + 1)
      rw [runOps_cons]
      show runOps (wrap32 (v + 1)) rest = _
      rw [ih (wrap32 (v + 1)) hr.1 hr.2]
      have hc : List.count Op.inc (Op.inc :: rest) = List.count Op.inc rest + 1 := by
        simp [List.count_cons]
      have hd : List.count Op.dec (Op.inc :: rest) = List.count Op.dec rest := by
        simp [List.count_cons]
      rw [hc, hd]
      unfold wrap32
      push_cast
      omega
    | dec =>
      have hr := wrap32_range (v - 1)
      rw [runOps_cons]
      show runOps (wrap32 (v - 1)) rest = _
      rw [ih (wrap32 (v - 1)) hr.1 hr.2]
      have hc : List.count Op.inc (Op.dec :: rest) = List.count Op.inc rest := by
        simp [List.count_cons]
      have hd : List.count Op.dec (Op.dec :: rest) = List.count Op.dec rest + 1 := by
        simp [List.count_cons]
      rw [hc, hd]
      unfold wrap32
      push_cast
      omega
    | get =>
      rw [runOps_cons]
      show runOps v rest = _
      rw [ih v h1 h2]
      have hc : List.count Op.inc (Op.get :: rest) = List.count Op.inc rest := by
        simp [List.count_cons]
      have hd : List.count Op.dec (Op.get :: rest) = List.count Op.dec rest := by
        simp [List.count_cons]
      rw [hc, hd]

theorem applyOp_range (v : Int) (h1 : INT32_MIN ≤ v) (h2 : v ≤ INT32_MAX) (op : Op) :
    INT32_MIN ≤ applyOp v op ∧ applyOp v op ≤ INT32_MAX := by
  cases op with
  | inc => exact wrap32_range (v + 1)
  | dec => exact wrap32_range (v - 1)
  | get => exact ⟨h1, h2⟩

theorem runOps_range (l : List Op) : ∀ v : Int, INT32_MIN ≤ v → v ≤ INT32_MAX →
    INT32_MIN ≤ runOps v l ∧ runOps v l ≤ INT32_MAX := by
  induction l with
  | nil => intro v h1 h2; exact ⟨h1, h2⟩
  | cons op rest ih =>
    intro v h1 h2
    have h := applyOp_range v h1 h2 op
    rw [runOps_cons]
    exact ih _ h.1 h.2

theorem runOps_filter_get (l : List Op) : ∀ v : Int,
    runOps v (l.filter fun op => op != Op.get) = runOps v l := by
  induction l with
  | nil => intro v; rfl
  | cons op rest ih =>
    intro v
    cases op with
    | inc =>
      simp only [List.filter_cons, bne_self_eq_false, Bool.false_eq_true,
        if_true, runOps_cons]
      exact ih _
    | dec =>
      simp only [List.filter_cons, runOps_cons]
      exact ih _
    | get =>
      simp only [List.filter_cons, bne_self_eq_false, if_false, runOps_cons]
      rw [show applyOp v Op.get = v from rfl]
      exact ih v

/- ### Claims -/

/-- C1 counterexample: at the counter state `INT32_MAX` (a valid `i32`
state), increment does not set the counter to `v + 1`: native wraparound
sends it to `INT32_MIN` instead. -/
theorem C1_counterexample : (HelloWorld.increment INT32_MAX).2 ≠ INT32_MAX + 1 := by
  decide

/-- C1 (amended): for every counter state `v` strictly below `INT32_MAX`
(so that `v + 1` is representable), increment sets the stored counter to
`v + 1` and returns a success result whose single text content is the
decimal string representation of `v + 1`. -/
theorem C1_increment_ok (v : Int) (h1 : INT32_MIN ≤ v) (h2 : v < INT32_MAX) :
    HelloWorld.increment v =
      (Except.ok (CallToolResult.success [Content.text (toString (v + 1))]), v + 1) := by
  have hw : wrap32 (v + 1) = v + 1 := by
    simp only [INT32_MIN] at h1
    simp only [INT32_MAX] at h2
    unfold wrap32
    omega
  simp [HelloWorld.increment, hw]

/-- C1 witness: incrementing from 5 yields the text "6" and counter 6. -/
theorem C1_witness :
    HelloWorld.increment 5 =
      (Except.ok (CallToolResult.success [Content.text "6"]), 6) := by
  rw [C1_increment_ok 5 (by decide) (by decide)]
  decide

/-- C2 counterexample: at the counter state `INT32_MIN` (a valid `i32`
state), decrement does not set the counter to `v - 1`: native wraparound
sends it to `INT32_MAX` instead. -/
theorem C2_counterexample : (HelloWorld.decrement INT32_MIN).2 ≠ INT32_MIN - 1 := by
  decide

/-- C2 (amended): for every counter state `v` strictly above `INT32_MIN`
(so that `v - 1` is representable), decrement sets the stored counter to
`v - 1` and returns a success result whose single text content is the
decimal string of `v - 1`; in particular the counter may go below zero. -/
theorem C2_decrement_ok (v : Int) (h1 : INT32_MIN < v) (h2 : v ≤ INT32_MAX) :
    HelloWorld.decrement v =
      (Except.ok (CallToolResult.success [Content.text (toString (v - 1))]), v - 1) := by
  have hw : wrap32 (v - 1) = v - 1 := by
    simp only [INT32_MIN] at h1
    simp only [INT32_MAX] at h2
    unfold wrap32
    omega
  simp [HelloWorld.decrement, hw]

/-- C2 witness: decrementing from 0 yields the text "-1" and counter -1,
so the counter does go below zero. -/
theorem C2_witness :
    HelloWorld.decrement 0 =
      (Except.ok (CallToolResult.success [Content.text "-1"]), -1) := by
  rw [C2_decrement_ok 0 (by decide) (by decide)]
  decide

/-- C3 counterexample: from the initial counter value `INT32_MAX`, the
sequence of `a = 1` increments and `b = 0` decrements does not end at
`v + a - b`: it wraps to `INT32_MIN`. -/
theorem C3_counterexample : runOps INT32_MAX [Op.inc] ≠ INT32_MAX + 1 - 0 := by
  decide

/-- C3 (amended): for every initial counter value `v` and every sequence of
`a` increments and `b` decrements applied in any order, the final counter
value equals `wrap32 (v + a - b)`, the two's-complement reduction of
`v + a - b`, independent of the order; in particular it equals `v + a - b`
exactly whenever `v + a - b` is representable as an `i32`. -/
theorem C3_net_effect (v : Int) (a b : Nat) (l : List Op)
    (h1 : INT32_MIN ≤ v) (h2 : v ≤ INT32_MAX)
    (ha : l.count Op.inc = a) (hb : l.count Op.dec = b) (_hg : Op.get ∉ l) :
    runOps v l = wrap32 (v + a - b) ∧
      (INT32_MIN ≤ v + a - b → v + a - b ≤ INT32_MAX → runOps v l = v + a - b) := by
  subst ha hb
  have h := runOps_eq_wrap l v h1 h2
  exact ⟨h, fun hlo hhi => h.trans (wrap32_eq_of_range _ hlo hhi)⟩

/-- C3 witness: from 0, the order inc, dec, inc (2 increments, 1 decrement)
ends at 0 + 2 - 1. -/
theorem C3_witness :
    runOps 0 [Op.inc, Op.dec, Op.inc] = 0 + (2 : Nat) - (1 : Nat) :=
  (C3_net_effect 0 2 1 [Op.inc, Op.dec, Op.inc]
      (by decide) (by decide) (by decide) (by decide) (by decide)).2
    (by decide) (by decide)

/-- C4: for every counter state `v`, get_counter returns a success result
whose text content is the decimal string of `v` and leaves the counter
unchanged; deleting every get operation from any sequence of operations
leaves the final counter value identical. -/
theorem C4_get_counter_pure : ∀ v : Int,
    HelloWorld.get_counter v =
      (Except.ok (CallToolResult.success [Content.text (toString v)]), v) ∧
    ∀ l : List Op, runOps v (l.filter fun op => op != Op.get) = runOps v l := by
  intro v
  exact ⟨rfl, fun l => runOps_filter_get l v⟩

/-- C5: at server startup the counter is 0, and get_counter on the fresh
state returns the text "0" with the counter still 0. -/
theorem C5_initial_zero :
    HelloWorld.new = 0 ∧
    HelloWorld.get_counter HelloWorld.new =
      (Except.ok (CallToolResult.success [Content.text "0"]), 0) := by
  exact ⟨rfl, by decide⟩

/-- C6: for every tool name outside the set of the three registered tools,
call_tool returns a structured method-not-found error and the counter value
is exactly the same after the failed call as before it. -/
theorem C6_unknown_tool (name : String) (v : Int)
    (h : name ≠ "increment" ∧ name ≠ "decrement" ∧ name ≠ "get_counter") :
    HelloWorld.call_tool name v =
      (Except.error { code := METHOD_NOT_FOUND, message := "tool not found" }, v) ∧
    (HelloWorld.call_tool name v).2 = v := by
  unfold HelloWorld.call_tool tool_router_call
  rw [if_neg h.1, if_neg h.2.1, if_neg h.2.2]
  exact ⟨rfl, rfl⟩

/-- C6 witness: invoking the unknown tool name "reset" at counter value 7
returns the method-not-found error and leaves the counter at 7. -/
theorem C6_witness :
    HelloWorld.call_tool "reset" 7 =
      (Except.error { code := METHOD_NOT_FOUND, message := "tool not found" }, 7) :=
  (C6_unknown_tool "reset" 7 (by decide)).1

/-- C7: for every pagination argument and every counter state, list_tools
returns exactly the 3 registered tool descriptors named increment,
decrement and get_counter, each with a non-empty description, and with no
next-page cursor. -/
theorem C7_list_tools_static : ∀ (pagination : Option String) (v : Int),
    HelloWorld.list_tools pagination v =
      Except.ok { tools := tool_router_list_all, next_cursor := none } ∧
    tool_router_list_all.length = 3 ∧
    tool_router_list_all.map Tool.name = ["increment", "decrement", "get_counter"] ∧
    ∀ t ∈ tool_router_list_all, t.description ≠ "" := by
  intro pagination v
  exact ⟨rfl, by decide, by decide, by decide⟩

/-- C8: the increment, decrement and get_counter handlers never fail: at
every counter state each returns an Ok value carrying a success result
(error flag Some(false)), never an Err. -/
theorem C8_handlers_never_fail : ∀ v : Int,
    (∃ r, (HelloWorld.increment v).1 = Except.ok r ∧ r.is_error = some false) ∧
    (∃ r, (HelloWorld.decrement v).1 = Except.ok r ∧ r.is_error = some false) ∧
    (∃ r, (HelloWorld.get_counter v).1 = Except.ok r ∧ r.is_error = some false) := by
  intro v
  exact ⟨⟨_, rfl, rfl⟩, ⟨_, rfl, rfl⟩, ⟨_, rfl, rfl⟩⟩

/-- C9: overflow follows native wraparound: incrementing at `INT32_MAX`
wraps the counter to `INT32_MIN`, decrementing at `INT32_MIN` wraps it to
`INT32_MAX`, and at every state the new counter value is congruent to the
exact result modulo 2^32. -/
theorem C9_wraparound :
    (HelloWorld.increment INT32_MAX).2 = INT32_MIN ∧
    (HelloWorld.decrement INT32_MIN).2 = INT32_MAX ∧
    (∀ v : Int, ((HelloWorld.increment v).2 - (v + 1)) % 2 ^ 32 = 0 ∧
      ((HelloWorld.decrement v).2 - (v - 1)) % 2 ^ 32 = 0) := by
  refine ⟨by decide, by decide, fun v => ⟨?_, ?_⟩⟩
  · show (wrap32 (v + 1) - (v + 1)) % 2 ^ 32 = 0
    unfold wrap32
    omega
  · show (wrap32 (v - 1) - (v - 1)) % 2 ^ 32 = 0
    unfold wrap32
    omega

/-- C10: the counter is a 32-bit signed integer: the initial value is in
`[INT32_MIN, INT32_MAX]`, each of the three operations preserves that
range, and hence every counter value reachable from startup by any
sequence of operations lies in it. -/
theorem C10_i32_invariant :
    (INT32_MIN ≤ HelloWorld.new ∧ HelloWorld.new ≤ INT32_MAX) ∧
    (∀ v : Int, INT32_MIN ≤ v → v ≤ INT32_MAX →
      ∀ op : Op, INT32_MIN ≤ applyOp v op ∧ applyOp v op ≤ INT32_MAX) ∧
    (∀ l : List Op,
      INT32_MIN ≤ runOps HelloWorld.new l ∧ runOps HelloWorld.new l ≤ INT32_MAX) := by
  refine ⟨by decide, fun v h1 h2 op => applyOp_range v h1 h2 op, fun l => ?_⟩
  exact runOps_range l HelloWorld.new (by decide) (by decide)

end CounterMCP
